import Mathlib

/-!
Shallow embedding of the `CDNService` class (NestJS + AWS SDK, TypeScript).

Each service method is embedded as a pure Lean function.  The effectful
collaborators (the S3 client, the CloudFront client, the CloudWatch client)
are passed in as backend functions returning `Except ε α`: a TypeScript
promise that rejects with error `e` is modelled as `Except.error e`, a
promise that resolves with `v` as `Except.ok v`.  The current clock reading
(`Date.now()`, in milliseconds since the Unix epoch) is passed explicitly as
a `Nat` argument where the source reads the clock.  Configuration values
read from `ConfigService` at construction time are gathered in `CDNConfig`.
-/

/-- `StreamingOptions.quality` values (from the TypeScript union type). -/
inductive Quality
  | low
  | medium
  | high
  | lossless
deriving DecidableEq

/-- The literal string of a quality value, as interpolated into keys. -/
def Quality.str : Quality → String
  | .low => "low"
  | .medium => "medium"
  | .high => "high"
  | .lossless => "lossless"

/-- `StreamingOptions.format` values (from the TypeScript union type). -/
inductive Format
  | mp3
  | aac
  | flac
deriving DecidableEq

/-- The literal string of a format value, as interpolated into keys. -/
def Format.str : Format → String
  | .mp3 => "mp3"
  | .aac => "aac"
  | .flac => "flac"

/-- The `StreamingOptions` interface: every field optional. -/
structure StreamingOptions where
  quality : Option Quality := none
  format : Option Format := none
  bitrate : Option Nat := none
deriving DecidableEq

/-- Configuration read once in the constructor from `ConfigService`. -/
structure CDNConfig where
  bucketName : String
  cdnDomain : String
  distributionId : String
deriving DecidableEq

/-- The `CDNUploadResult` interface. -/
structure CDNUploadResult where
  url : String
  cdnUrl : String
  key : String
  etag : String
deriving DecidableEq

/-- The fields of `AWS.S3.PutObjectRequest` that `uploadAudioFile` sets. -/
structure PutObjectRequest where
  Bucket : String
  Key : String
  Body : List Nat
  ContentType : String
  CacheControl : String
  Metadata : List (String × String)
deriving DecidableEq

/-- The fields of the `s3.upload` response that `uploadAudioFile` reads. -/
structure S3UploadResponse where
  Location : String
  Key : String
  ETag : String
deriving DecidableEq

/-- The parameter object passed to `s3.getSignedUrl("getObject", …)`. -/
structure SignedUrlRequest where
  Bucket : String
  Key : String
  Expires : Nat
  ResponseContentType : String
  ResponseCacheControl : String
deriving DecidableEq

/-- The `Paths` member of a CloudFront invalidation batch. -/
structure InvalidationPaths where
  Quantity : Nat
  Items : List String
deriving DecidableEq

/-- The `InvalidationBatch` member of a `createInvalidation` request. -/
structure InvalidationBatchSpec where
  CallerReference : String
  Paths : InvalidationPaths
deriving DecidableEq

/-- The parameter object passed to `cloudFront.createInvalidation`. -/
structure InvalidationParams where
  DistributionId : String
  invalidationBatch : InvalidationBatchSpec
deriving DecidableEq

/-- The parameter object passed to `cloudWatch.getMetricStatistics`.
Times are epoch milliseconds; `StartTime` is an `Int` because the source
computes it by subtraction (`Date.now() - 24*60*60*1000`). -/
structure MetricsParams where
  MetricName : String
  NamespaceName : String
  StartTime : Int
  EndTime : Int
  Period : Nat
  Statistics : List String
  Dimensions : List (String × String)
deriving DecidableEq

/-! ## Decimal rendering of a `Nat`

Models the JavaScript template interpolation of a nonnegative number
(as in the template literal containing `Date.now()`), which renders it in
decimal with no padding.  The recursion is bounded by an explicit fuel
argument so that every definition reduces by kernel computation. -/

/-- Most-significant-first decimal digit list of `n`, with `fuel` bounding
the recursion depth (any `fuel > n` is enough). -/
def natDigitsFuel : Nat → Nat → List Char
  | 0, _ => []
  | fuel + 1, n =>
    if n < 10 then [Nat.digitChar n]
    else natDigitsFuel fuel (n / 10) ++ [Nat.digitChar (n % 10)]

/-- Decimal digit list of `n`, most significant digit first. -/
def natDigits (n : Nat) : List Char := natDigitsFuel (n + 1) n

/-- Decimal string of `n`, as JavaScript string interpolation renders it. -/
def natStr (n : Nat) : String := String.mk (natDigits n)

/-- Decimal decoding of a digit list, used to invert `natDigits`. -/
def digitsToNat (l : List Char) : Nat :=
  l.foldl (fun acc c => acc * 10 + (c.toNat - 48)) 0

/-! ## `Date.prototype.toISOString`

`uploadAudioFile` stores `new Date().toISOString()` in the `uploaded-at`
metadata field.  The ECMAScript specification renders an epoch-millisecond
timestamp whose year lies in 0..9999 as `YYYY-MM-DDTHH:mm:ss.sssZ`
(proleptic Gregorian calendar, UTC).  The calendar conversion below is the
standard civil-from-days algorithm, specialised to nonnegative day counts.
`isoBound` is the first millisecond of year 10000; below it the plain
24-character format applies. -/

/-- Digit list of `n` left-padded with `'0'` to width `w`. -/
def padTo (w n : Nat) : List Char :=
  List.replicate (w - (natDigits n).length) '0' ++ natDigits n

/-- Millisecond-of-second component of an epoch-millisecond timestamp. -/
def msOf (n : Nat) : Nat := n % 1000

/-- Second-of-minute component. -/
def secOf (n : Nat) : Nat := n / 1000 % 60

/-- Minute-of-hour component. -/
def minOf (n : Nat) : Nat := n / 60000 % 60

/-- Hour-of-day component. -/
def hourOf (n : Nat) : Nat := n / 3600000 % 24

/-- Whole days since 1970-01-01. -/
def daysOf (n : Nat) : Nat := n / 86400000

/-- Days since 0000-03-01 (shifted epoch of the civil calendar algorithm). -/
def zOf (n : Nat) : Nat := daysOf n + 719468

/-- 400-year era index. -/
def eraOf (n : Nat) : Nat := zOf n / 146097

/-- Day-of-era, in 0..146096. -/
def doeOf (n : Nat) : Nat := zOf n % 146097

/-- Year-of-era, in 0..399. -/
def yoeOf (n : Nat) : Nat :=
  (doeOf n - doeOf n / 1460 + doeOf n / 36524 - doeOf n / 146096) / 365

/-- Day-of-year relative to March 1, in 0..365. -/
def doyOf (n : Nat) : Nat :=
  doeOf n - (365 * yoeOf n + yoeOf n / 4 - yoeOf n / 100)

/-- Shifted month index, 0 = March .. 11 = February. -/
def mpOf (n : Nat) : Nat := (5 * doyOf n + 2) / 153

/-- Civil day of month, 1..31. -/
def dayOf (n : Nat) : Nat := doyOf n - (153 * mpOf n + 2) / 5 + 1

/-- Civil month, 1..12. -/
def monthOf (n : Nat) : Nat :=
  if mpOf n < 10 then mpOf n + 3 else mpOf n - 9

/-- Civil year. -/
def yearOf (n : Nat) : Nat :=
  eraOf n * 400 + yoeOf n + (if mpOf n < 10 then 0 else 1)

/-- The first epoch millisecond of year 10000: timestamps below this bound
render in the plain 24-character ISO format. -/
def isoBound : Nat := 253402300800000

/-- `new Date(n).toISOString()` for an epoch-millisecond timestamp `n`
with `n < isoBound`: `YYYY-MM-DDTHH:mm:ss.sssZ`. -/
def toISOString (n : Nat) : String :=
  String.mk
    (padTo 4 (yearOf n) ++ '-' ::
      (padTo 2 (monthOf n) ++ '-' ::
        (padTo 2 (dayOf n) ++ 'T' ::
          (padTo 2 (hourOf n) ++ ':' ::
            (padTo 2 (minOf n) ++ ':' ::
              (padTo 2 (secOf n) ++ '.' ::
                (padTo 3 (msOf n) ++ ['Z'])))))))

/-- Character-pattern matcher: `'d'` in the pattern demands a decimal
digit, any other pattern character demands itself. -/
def matchesPattern : List Char → List Char → Bool
  | [], [] => true
  | p :: ps, c :: cs =>
      (if p = 'd' then c.isDigit else p == c) && matchesPattern ps cs
  | _, _ => false

/-- The ISO-8601 extended date-time pattern `YYYY-MM-DDTHH:mm:ss.sssZ`. -/
def patternISO : List Char :=
  List.replicate 4 'd' ++ '-' ::
    (List.replicate 2 'd' ++ '-' ::
      (List.replicate 2 'd' ++ 'T' ::
        (List.replicate 2 'd' ++ ':' ::
          (List.replicate 2 'd' ++ ':' ::
            (List.replicate 2 'd' ++ '.' ::
              (List.replicate 3 'd' ++ ['Z']))))))

/-- Checks that a string is an ISO-8601 extended UTC date-time of the
shape `YYYY-MM-DDTHH:mm:ss.sssZ` (the shape produced by `toISOString`
and accepted by `Date.parse`). -/
def isISO8601 (s : String) : Bool := matchesPattern patternISO s.data

/-! ## The five service methods -/

/-- The `PutObjectRequest` built by `uploadAudioFile` (source lines 49-58).
`now` is the `Date.now()` reading at upload time, rendered into the
`uploaded-at` metadata field by `new Date().toISOString()`. -/
def uploadParams (cfg : CDNConfig) (now : Nat) (file : List Nat)
    (key : String) (contentType : String) : PutObjectRequest :=
  { Bucket := cfg.bucketName
    Key := key
    Body := file
    ContentType := contentType
    CacheControl := "max-age=31536000"
    Metadata := [("uploaded-at", toISOString now)] }

/-- `CDNService.uploadAudioFile` (source lines 47-72).  The `try/catch`
logs and rethrows, so a rejected upload promise yields the same error. -/
def uploadAudioFile {ε : Type}
    (cfg : CDNConfig)
    (s3Upload : PutObjectRequest → Except ε S3UploadResponse)
    (now : Nat) (file : List Nat) (key : String)
    (contentType : String := "audio/mpeg") :
    Except ε CDNUploadResult :=
  match s3Upload (uploadParams cfg now file key contentType) with
  | .ok result =>
      .ok { url := result.Location
            cdnUrl := "https://" ++ cfg.cdnDomain ++ "/" ++ key
            key := result.Key
            etag := result.ETag }
  | .error e => .error e

/-- The signed-URL request built by `generateStreamingUrl`
(source lines 76-86), including its key derivation and defaults. -/
def signedUrlRequest (cfg : CDNConfig) (trackId : String)
    (options : StreamingOptions) : SignedUrlRequest :=
  let quality := options.quality.getD Quality.medium
  let format := options.format.getD Format.mp3
  let key := "tracks/" ++ trackId ++ "/" ++ quality.str ++ "." ++ format.str
  { Bucket := cfg.bucketName
    Key := key
    Expires := 3600
    ResponseContentType := "audio/" ++ format.str
    ResponseCacheControl := "max-age=3600" }

/-- `CDNService.generateStreamingUrl` (source lines 74-93).  The
`try/catch` logs and rethrows, so a backend failure propagates. -/
def generateStreamingUrl {ε : Type}
    (cfg : CDNConfig)
    (getSignedUrl : SignedUrlRequest → Except ε String)
    (trackId : String) (options : StreamingOptions := {}) :
    Except ε String :=
  match getSignedUrl (signedUrlRequest cfg trackId options) with
  | .ok signedUrl => .ok signedUrl
  | .error e => .error e

/-- `CDNService.generateCDNStreamingUrl` (source lines 95-100): repeats the
key derivation of `generateStreamingUrl` and returns the public CDN URL.
No backend is involved and there is no error branch, so the result is
always `Except.ok`. -/
def generateCDNStreamingUrl {ε : Type}
    (cfg : CDNConfig) (trackId : String)
    (options : StreamingOptions := {}) : Except ε String :=
  let quality := options.quality.getD Quality.medium
  let format := options.format.getD Format.mp3
  let key := "tracks/" ++ trackId ++ "/" ++ quality.str ++ "." ++ format.str
  .ok ("https://" ++ cfg.cdnDomain ++ "/" ++ key)

/-- The `createInvalidation` request built by `invalidateCDNCache`
(source lines 106-115).  `now` is the `Date.now()` reading. -/
def invalidationParams (cfg : CDNConfig) (now : Nat)
    (paths : List String) : InvalidationParams :=
  { DistributionId := cfg.distributionId
    invalidationBatch :=
      { CallerReference := "invalidation-" ++ natStr now
        Paths :=
          { Quantity := paths.length
            Items := paths.map (fun path => "/" ++ path) } } }

/-- `CDNService.invalidateCDNCache` (source lines 102-123).  The
`try/catch` logs and rethrows, so a backend failure propagates; on success
the invalidation response is discarded and `void` (here `Unit`) returned. -/
def invalidateCDNCache {ε : Type}
    (cfg : CDNConfig)
    (createInvalidation : InvalidationParams → Except ε Unit)
    (now : Nat) (paths : List String) : Except ε Unit :=
  match createInvalidation (invalidationParams cfg now paths) with
  | .ok _ => .ok ()
  | .error e => .error e

/-- The `getMetricStatistics` request built by `getStreamingMetrics`
(source lines 130-143).  Note it does not depend on the `trackId`
argument of `getStreamingMetrics`. -/
def metricsParams (cfg : CDNConfig) (now : Nat) : MetricsParams :=
  { MetricName := "BytesDownloaded"
    NamespaceName := "AWS/CloudFront"
    StartTime := (now : Int) - 24 * 60 * 60 * 1000
    EndTime := (now : Int)
    Period := 3600
    Statistics := ["Sum", "Average"]
    Dimensions := [("DistributionId", cfg.distributionId)] }

/-- `CDNService.getStreamingMetrics` (source lines 125-151).  The `catch`
branch logs and returns `null`, modelled as `none`; it never rethrows. -/
def getStreamingMetrics {ε μ : Type}
    (cfg : CDNConfig)
    (getMetricStatistics : MetricsParams → Except ε μ)
    (now : Nat) (_trackId : String) : Option μ :=
  match getMetricStatistics (metricsParams cfg now) with
  | .ok metrics => some metrics
  | .error _ => none

/-- A concrete configuration used by witnesses and counterexamples. -/
def cfg0 : CDNConfig :=
  { bucketName := "audio-bucket"
    cdnDomain := "cdn.example.com"
    distributionId := "E2EXAMPLE" }

/-! ## Helper lemmas: decimal digits, padding, the ISO pattern -/

theorem digitChar_isDigit (d : Nat) (h : d < 10) : (Nat.digitChar d).isDigit = true := by
  interval_cases d <;> decide

theorem digitChar_toNat (d : Nat) (h : d < 10) : (Nat.digitChar d).toNat = 48 + d := by
  interval_cases d <;> decide

theorem natDigitsFuel_digits (fuel : Nat) :
    ∀ n c, c ∈ natDigitsFuel fuel n → c.isDigit = true := by
  induction fuel with
  | zero => intro n c hc; simp [natDigitsFuel] at hc
  | succ fuel ih =>
      intro n c hc
      simp only [natDigitsFuel] at hc
      by_cases h : n < 10
      · simp [h] at hc
        subst hc
        exact digitChar_isDigit n h
      · simp [h] at hc
        rcases hc with hc | hc
        · exact ih _ _ hc
        · subst hc
          exact digitChar_isDigit _ (Nat.mod_lt _ (by omega))

theorem natDigitsFuel_length_le (fuel : Nat) :
    ∀ n w, n < fuel → n < 10 ^ w → 0 < w → (natDigitsFuel fuel n).length ≤ w := by
  induction fuel with
  | zero => intro n w h; omega
  | succ fuel ih =>
      intro n w hfuel hw hw0
      simp only [natDigitsFuel]
      by_cases h : n < 10
      · simp [h]; omega
      · simp [h]
        have hw1 : 1 < w := by
          by_contra hc
          have : w = 1 := by omega
          subst this
          simp at hw
          omega
        have : n / 10 < 10 ^ (w - 1) := by
          have : 10 ^ w = 10 ^ (w - 1) * 10 := by
            conv_lhs => rw [show w = (w - 1) + 1 by omega]
            rw [pow_succ]
          omega
        have := ih (n / 10) (w - 1) (by omega) this (by omega)
        omega

theorem natDigits_digits (n : Nat) : ∀ c ∈ natDigits n, c.isDigit = true := by
  intro c hc
  exact natDigitsFuel_digits (n + 1) n c hc

theorem natDigits_length_le (n w : Nat) (hw : n < 10 ^ w) (hw0 : 0 < w) :
    (natDigits n).length ≤ w :=
  natDigitsFuel_length_le (n + 1) n w (Nat.lt_succ_self n) hw hw0

theorem padTo_length (w n : Nat) (hw : n < 10 ^ w) (hw0 : 0 < w) :
    (padTo w n).length = w := by
  have := natDigits_length_le n w hw hw0
  simp [padTo]
  omega

theorem padTo_digits (w n : Nat) : ∀ c ∈ padTo w n, c.isDigit = true := by
  intro c hc
  simp only [padTo, List.mem_append] at hc
  rcases hc with hc | hc
  · have := List.eq_of_mem_replicate hc
    subst this
    decide
  · exact natDigits_digits n c hc

theorem matchesPattern_digitRun (l : List Char) :
    ∀ ps cs, (∀ c ∈ l, c.isDigit = true) →
      matchesPattern (List.replicate l.length 'd' ++ ps) (l ++ cs)
        = matchesPattern ps cs := by
  induction l with
  | nil => intro ps cs _; rfl
  | cons c l ih =>
      intro ps cs hd
      show ((if 'd' = 'd' then c.isDigit else 'd' == c)
          && matchesPattern (List.replicate l.length 'd' ++ ps) (l ++ cs))
        = matchesPattern ps cs
      rw [if_pos rfl, hd c (by simp),
        ih ps cs (fun x hx => hd x (by simp [hx])), Bool.true_and]

theorem matchesPattern_pad (w n : Nat) (ps cs : List Char)
    (hn : n < 10 ^ w) (hw : 0 < w) :
    matchesPattern (List.replicate w 'd' ++ ps) (padTo w n ++ cs)
      = matchesPattern ps cs := by
  have hl := padTo_length w n hn hw
  calc matchesPattern (List.replicate w 'd' ++ ps) (padTo w n ++ cs)
      = matchesPattern (List.replicate (padTo w n).length 'd' ++ ps)
          (padTo w n ++ cs) := by rw [hl]
    _ = matchesPattern ps cs :=
        matchesPattern_digitRun (padTo w n) ps cs (padTo_digits w n)

theorem matchesPattern_lit (p : Char) (ps cs : List Char) (hp : p ≠ 'd') :
    matchesPattern (p :: ps) (p :: cs) = matchesPattern ps cs := by
  simp [matchesPattern, hp]

/-! ## Helper lemmas: bounds on the calendar components -/

theorem yearOf_le (n : Nat) (h : n < isoBound) : yearOf n ≤ 9999 := by
  simp only [yearOf, eraOf, yoeOf, mpOf, doyOf, doeOf, zOf, daysOf, isoBound] at *
  split <;> omega

theorem monthOf_le (n : Nat) : monthOf n ≤ 14 := by
  simp only [monthOf, mpOf, doyOf, yoeOf, doeOf, zOf, daysOf]
  split <;> omega

theorem dayOf_le (n : Nat) : dayOf n ≤ 31 := by
  simp only [dayOf, mpOf, doyOf, yoeOf, doeOf, zOf, daysOf]
  omega

/-- Any timestamp below `isoBound` renders as a well-formed ISO-8601
extended UTC date-time. -/
theorem toISOString_isISO8601 (n : Nat) (h : n < isoBound) :
    isISO8601 (toISOString n) = true := by
  have hy : yearOf n < 10 ^ 4 := by
    have := yearOf_le n h
    have h4 : (10 : Nat) ^ 4 = 10000 := by norm_num
    omega
  have hmo : monthOf n < 10 ^ 2 := by
    have := monthOf_le n
    have h2 : (10 : Nat) ^ 2 = 100 := by norm_num
    omega
  have hd : dayOf n < 10 ^ 2 := by
    have := dayOf_le n
    have h2 : (10 : Nat) ^ 2 = 100 := by norm_num
    omega
  have hh : hourOf n < 10 ^ 2 := by
    have : hourOf n < 24 := Nat.mod_lt _ (by omega)
    have h2 : (10 : Nat) ^ 2 = 100 := by norm_num
    omega
  have hmi : minOf n < 10 ^ 2 := by
    have : minOf n < 60 := Nat.mod_lt _ (by omega)
    have h2 : (10 : Nat) ^ 2 = 100 := by norm_num
    omega
  have hs : secOf n < 10 ^ 2 := by
    have : secOf n < 60 := Nat.mod_lt _ (by omega)
    have h2 : (10 : Nat) ^ 2 = 100 := by norm_num
    omega
  have hms : msOf n < 10 ^ 3 := by
    have : msOf n < 1000 := Nat.mod_lt _ (by omega)
    have h3 : (10 : Nat) ^ 3 = 1000 := by norm_num
    omega
  show matchesPattern patternISO
    (padTo 4 (yearOf n) ++ '-' ::
      (padTo 2 (monthOf n) ++ '-' ::
        (padTo 2 (dayOf n) ++ 'T' ::
          (padTo 2 (hourOf n) ++ ':' ::
            (padTo 2 (minOf n) ++ ':' ::
              (padTo 2 (secOf n) ++ '.' ::
                (padTo 3 (msOf n) ++ ['Z']))))))) = true
  rw [patternISO]
  rw [matchesPattern_pad 4 _ _ _ hy (by omega),
    matchesPattern_lit '-' _ _ (by decide),
    matchesPattern_pad 2 _ _ _ hmo (by omega),
    matchesPattern_lit '-' _ _ (by decide),
    matchesPattern_pad 2 _ _ _ hd (by omega),
    matchesPattern_lit 'T' _ _ (by decide),
    matchesPattern_pad 2 _ _ _ hh (by omega),
    matchesPattern_lit ':' _ _ (by decide),
    matchesPattern_pad 2 _ _ _ hmi (by omega),
    matchesPattern_lit ':' _ _ (by decide),
    matchesPattern_pad 2 _ _ _ hs (by omega),
    matchesPattern_lit '.' _ _ (by decide),
    matchesPattern_pad 3 _ _ _ hms (by omega),
    matchesPattern_lit 'Z' _ _ (by decide)]
  rfl

/-! ## Helper lemmas: injectivity of the decimal rendering -/

theorem digitsToNat_go (fuel : Nat) :
    ∀ n acc, n < fuel →
      (natDigitsFuel fuel n).foldl (fun acc c => acc * 10 + (c.toNat - 48)) acc
        = acc * 10 ^ (natDigitsFuel fuel n).length + n := by
  induction fuel with
  | zero => intro n acc h; omega
  | succ fuel ih =>
      intro n acc hfuel
      by_cases h : n < 10
      · simp only [natDigitsFuel, if_pos h, List.foldl_cons, List.foldl_nil,
          List.length_cons, List.length_nil]
        rw [digitChar_toNat n h]
        norm_num
      · simp only [natDigitsFuel, if_neg h, List.foldl_append, List.foldl_cons,
          List.foldl_nil, List.length_append, List.length_cons, List.length_nil]
        rw [ih (n / 10) acc (by omega), digitChar_toNat (n % 10) (Nat.mod_lt _ (by omega))]
        have h48 : 48 + n % 10 - 48 = n % 10 := by omega
        have hmod : n / 10 * 10 + n % 10 = n := by omega
        rw [h48]
        calc (acc * 10 ^ (natDigitsFuel fuel (n / 10)).length + n / 10) * 10 + n % 10
            = acc * (10 ^ (natDigitsFuel fuel (n / 10)).length * 10)
              + (n / 10 * 10 + n % 10) := by ring
          _ = acc * 10 ^ ((natDigitsFuel fuel (n / 10)).length + (0 + 1)) + n := by
              rw [hmod]
              rw [show (natDigitsFuel fuel (n / 10)).length + (0 + 1)
                  = (natDigitsFuel fuel (n / 10)).length + 1 from by omega, pow_succ]

theorem digitsToNat_natDigits (n : Nat) : digitsToNat (natDigits n) = n := by
  have := digitsToNat_go (n + 1) n 0 (Nat.lt_succ_self n)
  simpa [digitsToNat, natDigits] using this

theorem natStr_inj {a b : Nat} (h : natStr a = natStr b) : a = b := by
  have hdata : natDigits a = natDigits b := congrArg String.data h
  have := congrArg digitsToNat hdata
  rwa [digitsToNat_natDigits, digitsToNat_natDigits] at this

theorem callerRef_inj {a b : Nat}
    (h : "invalidation-" ++ natStr a = "invalidation-" ++ natStr b) : a = b := by
  have hdata := congrArg String.data h
  simp only [String.data_append] at hdata
  have : (natStr a).data = (natStr b).data := List.append_cancel_left hdata
  exact natStr_inj (congrArg String.mk this)

/-! ## Claim theorems -/

/-- C1: for every trackId, quality and format (and any bitrate), the storage
key in the signed-URL request of `generateStreamingUrl` is the pure string
`tracks/{trackId}/{quality}.{format}`, and `generateCDNStreamingUrl` returns
exactly `https://{cdnDomain}/` followed by that same key, so the CDN URL's
path suffix equals the storage key. -/
theorem c1_storage_key_agreement (cfg : CDNConfig) (trackId : String)
    (q : Quality) (f : Format) (br : Option Nat) :
    (signedUrlRequest cfg trackId ⟨some q, some f, br⟩).Key
        = "tracks/" ++ trackId ++ "/" ++ q.str ++ "." ++ f.str
      ∧ generateCDNStreamingUrl (ε := Unit) cfg trackId ⟨some q, some f, br⟩
        = .ok ("https://" ++ cfg.cdnDomain ++ "/"
            ++ (signedUrlRequest cfg trackId ⟨some q, some f, br⟩).Key) :=
  ⟨rfl, rfl⟩

/-- C2: when options are omitted (`{}`) or partially specified, the missing
quality defaults to `medium` and the missing format to `mp3`, both in the
computed storage key and in the signed-URL request's response content
type. -/
theorem c2_streaming_url_defaults (cfg : CDNConfig) (trackId : String) :
    (signedUrlRequest cfg trackId {}).Key
        = "tracks/" ++ trackId ++ "/" ++ "medium" ++ "." ++ "mp3"
      ∧ (signedUrlRequest cfg trackId {}).ResponseContentType = "audio/mp3"
      ∧ (∀ (f : Format) (br : Option Nat),
          (signedUrlRequest cfg trackId ⟨none, some f, br⟩).Key
            = "tracks/" ++ trackId ++ "/" ++ "medium" ++ "." ++ f.str)
      ∧ (∀ (q : Quality) (br : Option Nat),
          (signedUrlRequest cfg trackId ⟨some q, none, br⟩).Key
              = "tracks/" ++ trackId ++ "/" ++ q.str ++ "." ++ "mp3"
            ∧ (signedUrlRequest cfg trackId ⟨some q, none, br⟩).ResponseContentType
              = "audio/mp3") :=
  ⟨rfl, rfl, fun _ _ => rfl, fun _ _ => ⟨rfl, rfl⟩⟩

/-- C3 counterexample: the claim asserts that a path already starting with
`/` is not double-prefixed, but `invalidateCDNCache` maps `"/a"` to
`"//a"`, not `"/a"`: the code prepends `/` unconditionally. -/
theorem c3_double_slash_counterexample :
    (invalidationParams cfg0 0 ["/a", "c"]).invalidationBatch.Paths.Items
        = ["//a", "/c"]
      ∧ ["//a", "/c"] ≠ ["/a", "/c"] := by decide

/-- C3 amended: the invalidation batch has `Quantity` equal to the input
length and `Items` equal to the input paths each with `/` prepended
unconditionally; a path that already starts with `/` therefore becomes
double-prefixed. -/
theorem c3_invalidation_batch_amended (cfg : CDNConfig) (now : Nat)
    (paths : List String) :
    (invalidationParams cfg now paths).invalidationBatch.Paths.Quantity
        = paths.length
      ∧ (invalidationParams cfg now paths).invalidationBatch.Paths.Items
        = paths.map (fun path => "/" ++ path) :=
  ⟨rfl, rfl⟩

/-- C4: when the underlying API call rejects with error `e`,
`uploadAudioFile`, `generateStreamingUrl` and `invalidateCDNCache` all
reject with that same error `e`, while `getStreamingMetrics` swallows the
backend error and returns `none` (the model of `null`). -/
theorem c4_error_propagation_policy {ε μ : Type} (cfg : CDNConfig) (e : ε)
    (now : Nat) (file : List Nat) (key contentType trackId : String)
    (options : StreamingOptions) (paths : List String) :
    uploadAudioFile cfg (fun _ => .error e) now file key contentType = .error e
  ∧ generateStreamingUrl cfg (fun _ => .error e) trackId options = .error e
  ∧ invalidateCDNCache cfg (fun _ => .error e) now paths = .error e
  ∧ getStreamingMetrics (μ := μ) cfg (fun _ => .error e) now trackId = none :=
  ⟨rfl, rfl, rfl, rfl⟩

/-- C5: for every payload, key and content type, the put request built by
`uploadAudioFile` has cache control exactly `max-age=31536000` and a
metadata field `uploaded-at` holding `toISOString now`, which is a
well-formed ISO-8601 timestamp of the upload time. -/
theorem c5_upload_cache_control_and_timestamp (cfg : CDNConfig) (now : Nat)
    (file : List Nat) (key contentType : String) (h : now < isoBound) :
    (uploadParams cfg now file key contentType).CacheControl
        = "max-age=31536000"
      ∧ (uploadParams cfg now file key contentType).Metadata
        = [("uploaded-at", toISOString now)]
      ∧ isISO8601 (toISOString now) = true :=
  ⟨rfl, rfl, toISOString_isISO8601 now h⟩

/-- C5 witness: the theorem applied at a concrete 2025 timestamp. -/
theorem c5_upload_witness :
    (uploadParams cfg0 1760227200123 [0] "tracks/t1/medium.mp3"
          "audio/mpeg").CacheControl
        = "max-age=31536000"
      ∧ (uploadParams cfg0 1760227200123 [0] "tracks/t1/medium.mp3"
            "audio/mpeg").Metadata
        = [("uploaded-at", toISOString 1760227200123)]
      ∧ isISO8601 (toISOString 1760227200123) = true :=
  c5_upload_cache_control_and_timestamp cfg0 1760227200123 [0]
    "tracks/t1/medium.mp3" "audio/mpeg" (by decide)

/-- C6: for every trackId and options, the signed-URL request has expiry
3600 seconds, response content type `audio/{format}`, response cache
control `max-age=3600` and key `tracks/{trackId}/{quality}.{format}`;
in particular for `"track123"` with quality `high` and format `flac` the
key is `tracks/track123/high.flac` and the content type `audio/flac`. -/
theorem c6_signed_url_request_parameters (cfg : CDNConfig)
    (trackId : String) (options : StreamingOptions) :
    (signedUrlRequest cfg trackId options).Expires = 3600
      ∧ (signedUrlRequest cfg trackId options).ResponseContentType
        = "audio/" ++ (options.format.getD Format.mp3).str
      ∧ (signedUrlRequest cfg trackId options).ResponseCacheControl
        = "max-age=3600"
      ∧ (signedUrlRequest cfg trackId options).Key
        = "tracks/" ++ trackId ++ "/" ++ (options.quality.getD Quality.medium).str
          ++ "." ++ (options.format.getD Format.mp3).str
      ∧ (signedUrlRequest cfg0 "track123"
            ⟨some Quality.high, some Format.flac, none⟩).Key
        = "tracks/track123/high.flac"
      ∧ (signedUrlRequest cfg0 "track123"
            ⟨some Quality.high, some Format.flac, none⟩).ResponseContentType
        = "audio/flac" :=
  ⟨rfl, rfl, rfl, rfl, by decide, by decide⟩

/-- C7 counterexample: two distinct calls (different path arguments) made
at the same `Date.now()` millisecond produce the same caller reference, so
the caller reference is not unique per call as the claim states. -/
theorem c7_caller_reference_collision :
    (invalidationParams cfg0 1000 ["a"]).invalidationBatch.CallerReference
        = (invalidationParams cfg0 1000 ["b"]).invalidationBatch.CallerReference
      ∧ invalidationParams cfg0 1000 ["a"] ≠ invalidationParams cfg0 1000 ["b"] :=
  ⟨rfl, by decide⟩

/-- C7 amended: the caller reference has the form
`invalidation-{epoch-millis}` and is injective in the clock reading: calls
at distinct milliseconds get distinct caller references, while calls in
the same millisecond share one. -/
theorem c7_caller_reference_amended (cfg : CDNConfig) (now : Nat)
    (paths : List String) :
    (invalidationParams cfg now paths).invalidationBatch.CallerReference
        = "invalidation-" ++ natStr now
      ∧ ∀ (cfg2 : CDNConfig) (now2 : Nat) (paths2 : List String), now ≠ now2 →
          (invalidationParams cfg now paths).invalidationBatch.CallerReference
            ≠ (invalidationParams cfg2 now2 paths2).invalidationBatch.CallerReference := by
  refine ⟨rfl, ?_⟩
  intro cfg2 now2 paths2 hne h
  exact hne (callerRef_inj h)

/-- C7 witness: distinct concrete milliseconds 1 and 2 give distinct
caller references. -/
theorem c7_caller_reference_witness :
    (invalidationParams cfg0 1 []).invalidationBatch.CallerReference
      ≠ (invalidationParams cfg0 2 []).invalidationBatch.CallerReference :=
  (c7_caller_reference_amended cfg0 1 []).2 cfg0 2 [] (by decide)

/-- C8: `generateCDNStreamingUrl` is total and cannot fail: for every
configuration, trackId and options it returns `Except.ok` of the CDN URL
string; there is no error branch. -/
theorem c8_cdn_url_total {ε : Type} (cfg : CDNConfig) (trackId : String)
    (options : StreamingOptions) :
    generateCDNStreamingUrl (ε := ε) cfg trackId options
        = .ok ("https://" ++ cfg.cdnDomain ++ "/"
            ++ ("tracks/" ++ trackId ++ "/"
              ++ (options.quality.getD Quality.medium).str
              ++ "." ++ (options.format.getD Format.mp3).str))
      ∧ (generateCDNStreamingUrl (ε := ε) cfg trackId options).isOk = true :=
  ⟨rfl, rfl⟩

/-- C9: the metrics query built by `getStreamingMetrics` does not depend on
the trackId argument: any two trackIds give the same result under the same
configuration, clock and backend, and the query is the fixed
`BytesDownloaded` query over the trailing 24 hours at 1-hour period with
statistics Sum and Average, scoped only by the distribution id. -/
theorem c9_metrics_track_independent {ε μ : Type} (cfg : CDNConfig)
    (getMetricStatistics : MetricsParams → Except ε μ) (now : Nat)
    (t1 t2 : String) :
    getStreamingMetrics cfg getMetricStatistics now t1
        = getStreamingMetrics cfg getMetricStatistics now t2
      ∧ metricsParams cfg now
        = { MetricName := "BytesDownloaded"
            NamespaceName := "AWS/CloudFront"
            StartTime := (now : Int) - 24 * 60 * 60 * 1000
            EndTime := (now : Int)
            Period := 3600
            Statistics := ["Sum", "Average"]
            Dimensions := [("DistributionId", cfg.distributionId)] } :=
  ⟨rfl, rfl⟩

/-- C10: called with an empty path list, `invalidateCDNCache` does not
short-circuit: it still submits the invalidation request, whose batch has
`Quantity` 0 and empty `Items`, and its outcome is exactly the backend's
response to that request. -/
theorem c10_empty_invalidation {ε : Type} (cfg : CDNConfig)
    (createInvalidation : InvalidationParams → Except ε Unit) (now : Nat) :
    (invalidationParams cfg now []).invalidationBatch.Paths.Quantity = 0
      ∧ (invalidationParams cfg now []).invalidationBatch.Paths.Items = []
      ∧ invalidateCDNCache cfg createInvalidation now []
        = createInvalidation (invalidationParams cfg now []) := by
  refine ⟨rfl, rfl, ?_⟩
  cases h : createInvalidation (invalidationParams cfg now []) with
  | ok v => simp [invalidateCDNCache, h]
  | error e => simp [invalidateCDNCache, h]
